import Mathlib

/-!
Verification development for the Vulkan render engine of this repository.

The definitions below are a shallow embedding of the engine's C++ sources:
`VulkanEngine.cpp` (drawFrame, recreateSwapChain, cleanupSwapChain,
updateUniformBuffer, recordCommandBuffer, chooseSwapSurfaceFormat,
chooseSwapPresentMode, chooseSwapExtent, createSyncObjects),
`VulkanGeometryBuffer.cpp` (two revisions present in the repository),
`VulkanUtils.cpp` (createBuffer), `Mesh.h` (graphics::Vertex) and the
application driver (Application::run / initScene / initVulkan).
Vulkan API calls are modelled by explicit state transitions plus an emitted
trace of operations, so that ordering claims become statements about lists.
-/

namespace VkTmpl

/-- Result codes of vkAcquireNextImageKHR / vkQueuePresentKHR as used by
`VulkanEngine::drawFrame`: it distinguishes VK_SUCCESS, VK_SUBOPTIMAL_KHR,
VK_ERROR_OUT_OF_DATE_KHR and treats every other code as a hard failure. -/
inductive VkResult
  | success
  | suboptimalKHR
  | errorOutOfDateKHR
  | otherError
deriving DecidableEq, Repr

/-- The two kinds of per-slot semaphores held by the engine
(`imageAvailableSemaphores[i]`, `renderFinishedSemaphores[i]`). -/
inductive Sem
  | imageAvailable (slot : Nat)
  | renderFinished (slot : Nat)
deriving DecidableEq, Repr

/-- One observable operation performed by a `drawFrame` tick, in program
order.  Each constructor corresponds to one call site in
`VulkanEngine::drawFrame` (src/unnamed/part_004, lines 245-336). -/
inductive FrameOp
  | waitFence (slot : Nat)
  | acquireNextImage (signal : Sem)
  | recreateSwapChainOp
  | updateUniformBufferOp (slot : Nat)
  | resetFence (slot : Nat)
  | resetCommandBuffer (slot : Nat)
  | recordCommandBufferOp (slot : Nat) (imageIndex : Nat)
  | queueSubmit (waitSem : Sem) (signalSem : Sem) (signalFence : Nat) (slot : Nat)
  | queuePresent (waitSem : Sem) (imageIndex : Nat)
deriving DecidableEq, Repr

/-- Orchestrator-visible engine state.  `inFlight` records the slots whose
command buffer has been submitted but whose fence has not yet been waited on
and observed signaled; `recreations` counts executions of
`recreateSwapChain`; `uboWriteCount`/`cmdRecordCount` count per-slot uniform
updates and command-buffer recordings. -/
structure EngineState where
  maxFramesInFlight : Nat
  currentFrame : Nat
  fenceSignaled : Nat → Bool
  inFlight : List Nat
  framebufferResized : Bool
  recreations : Nat
  uboWriteCount : Nat → Nat
  cmdRecordCount : Nat → Nat

/-- Per-tick environment: the codes returned by the acquire / submit /
present calls and the image index produced by vkAcquireNextImageKHR. -/
structure TickInput where
  acquireResult : VkResult
  acquiredImageIndex : Nat
  submitOk : Bool
  presentResult : VkResult
deriving DecidableEq, Repr

/-- The std::runtime_error throws that can escape `drawFrame`. -/
inductive RuntimeError
  | acquireFailed
  | submitFailed
  | presentFailed
deriving DecidableEq, Repr

/-- vkWaitForFences on slot `currentFrame`: blocks until the fence is
signaled, so afterwards the fence reads signaled and the slot's previously
submitted work is no longer in flight. -/
def waitFenceStep (s : EngineState) : EngineState :=
  { s with
    fenceSignaled := fun j => if j = s.currentFrame then true else s.fenceSignaled j
    inFlight := s.inFlight.erase s.currentFrame }

/-- Orchestrator-visible effect of `VulkanEngine::recreateSwapChain`: the
swapchain generation advances.  (Its resource-level effect is modelled
separately by `recreateSwapChainResOps`.) -/
def recreateStep (s : EngineState) : EngineState :=
  { s with recreations := s.recreations + 1 }

/-- vkResetFences on slot `i`. -/
def resetFenceStep (i : Nat) (s : EngineState) : EngineState :=
  { s with fenceSignaled := fun j => if j = i then false else s.fenceSignaled j }

/-- updateUniformBuffer(i, scene): one more write into slot `i`'s mapped
uniform buffer. -/
def updateUboStep (i : Nat) (s : EngineState) : EngineState :=
  { s with uboWriteCount := fun j => if j = i then s.uboWriteCount j + 1 else s.uboWriteCount j }

/-- vkResetCommandBuffer + recordCommandBuffer on slot `i`. -/
def recordStep (i : Nat) (s : EngineState) : EngineState :=
  { s with cmdRecordCount := fun j => if j = i then s.cmdRecordCount j + 1 else s.cmdRecordCount j }

/-- vkQueueSubmit with fence `i`: slot `i`'s work becomes in flight. -/
def submitStep (i : Nat) (s : EngineState) : EngineState :=
  { s with inFlight := s.inFlight ++ [i] }

/-- Shallow embedding of `VulkanEngine::drawFrame`
(src/unnamed/part_004, lines 245-336), returning the post state and the
trace of operations, or the propagated std::runtime_error.  The statement
order of the source is preserved: wait fence; acquire (abort and recreate on
VK_ERROR_OUT_OF_DATE_KHR, throw on any code other than success/suboptimal);
update uniform buffer; reset fence; reset and record the command buffer;
submit; present (recreate afterwards on out-of-date/suboptimal/resize flag,
throw on other failures); advance `currentFrame` modulo MAX_FRAMES_IN_FLIGHT. -/
def drawFrame (s : EngineState) (inp : TickInput) :
    Except RuntimeError (EngineState × List FrameOp) :=
  let i := s.currentFrame
  let s1 := waitFenceStep s
  let tr0 := [FrameOp.waitFence i, FrameOp.acquireNextImage (Sem.imageAvailable i)]
  if inp.acquireResult = VkResult.errorOutOfDateKHR then
    Except.ok (recreateStep s1, tr0 ++ [FrameOp.recreateSwapChainOp])
  else if inp.acquireResult ≠ VkResult.success ∧ inp.acquireResult ≠ VkResult.suboptimalKHR then
    Except.error RuntimeError.acquireFailed
  else
    let img := inp.acquiredImageIndex
    let s2 := updateUboStep i s1
    let s3 := resetFenceStep i s2
    let s4 := recordStep i s3
    if inp.submitOk = false then
      Except.error RuntimeError.submitFailed
    else
      let s5 := submitStep i s4
      let tr := tr0 ++
        [FrameOp.updateUniformBufferOp i, FrameOp.resetFence i,
         FrameOp.resetCommandBuffer i, FrameOp.recordCommandBufferOp i img,
         FrameOp.queueSubmit (Sem.imageAvailable i) (Sem.renderFinished i) i i,
         FrameOp.queuePresent (Sem.renderFinished i) img]
      if inp.presentResult = VkResult.errorOutOfDateKHR ∨
         inp.presentResult = VkResult.suboptimalKHR ∨ s5.framebufferResized then
        let s6 := recreateStep { s5 with framebufferResized := false }
        Except.ok ({ s6 with currentFrame := (i + 1) % s.maxFramesInFlight },
          tr ++ [FrameOp.recreateSwapChainOp])
      else if inp.presentResult ≠ VkResult.success then
        Except.error RuntimeError.presentFailed
      else
        Except.ok ({ s5 with currentFrame := (i + 1) % s.maxFramesInFlight }, tr)

/-- MAX_FRAMES_IN_FLIGHT = 2 (src/unnamed/part_013, line 150). -/
def MAX_FRAMES_IN_FLIGHT : Nat := 2

/-- Engine state right after initVulkan: slot 0 current, all fences created
in the signaled state (VK_FENCE_CREATE_SIGNALED_BIT in createSyncObjects),
nothing submitted yet. -/
def initialEngineState : EngineState :=
  { maxFramesInFlight := MAX_FRAMES_IN_FLIGHT
    currentFrame := 0
    fenceSignaled := fun _ => true
    inFlight := []
    framebufferResized := false
    recreations := 0
    uboWriteCount := fun _ => 0
    cmdRecordCount := fun _ => 0 }

/-- The render loop: run `drawFrame` on each tick input in turn; a thrown
error leaves the loop (Application::mainLoop breaks on exception). -/
def runTicks (s : EngineState) : List TickInput → EngineState
  | [] => s
  | inp :: rest =>
    match drawFrame s inp with
    | Except.error _ => s
    | Except.ok (s', _) => runTicks s' rest

/-- The canonical operation sequence of a successfully rendered tick on slot
`i` presenting image `img`. -/
def canonicalTickTrace (i img : Nat) : List FrameOp :=
  [FrameOp.waitFence i, FrameOp.acquireNextImage (Sem.imageAvailable i),
   FrameOp.updateUniformBufferOp i, FrameOp.resetFence i,
   FrameOp.resetCommandBuffer i, FrameOp.recordCommandBufferOp i img,
   FrameOp.queueSubmit (Sem.imageAvailable i) (Sem.renderFinished i) i i,
   FrameOp.queuePresent (Sem.renderFinished i) img]

/-- Round-robin slot invariant: in-flight slots are pairwise distinct and
all below MAX_FRAMES_IN_FLIGHT, as is the current slot. -/
def SlotInvariant (s : EngineState) : Prop :=
  s.inFlight.Nodup ∧ (∀ j ∈ s.inFlight, j < s.maxFramesInFlight) ∧
    s.currentFrame < s.maxFramesInFlight ∧ 0 < s.maxFramesInFlight

theorem nodup_length_le_of_lt (l : List Nat) (n : Nat) (hn : l.Nodup)
    (hb : ∀ j ∈ l, j < n) : l.length ≤ n := by
  have hcard : l.toFinset.card = l.length := List.toFinset_card_of_nodup hn
  have hsub : l.toFinset ⊆ Finset.range n := by
    intro x hx
    exact Finset.mem_range.mpr (hb x (List.mem_toFinset.mp hx))
  simpa [hcard] using Finset.card_le_card hsub

theorem drawFrame_preserves_inv (s : EngineState) (inp : TickInput)
    (s' : EngineState) (tr : List FrameOp)
    (h : drawFrame s inp = Except.ok (s', tr)) (hinv : SlotInvariant s) :
    SlotInvariant s' ∧ s'.maxFramesInFlight = s.maxFramesInFlight := by
  obtain ⟨hnd, hmem, hcur, hpos⟩ := hinv
  have hnd1 : (s.inFlight.erase s.currentFrame).Nodup := hnd.erase _
  have hmem1 : ∀ j ∈ s.inFlight.erase s.currentFrame, j < s.maxFramesInFlight :=
    fun j hj => hmem j (List.mem_of_mem_erase hj)
  have hni : s.currentFrame ∉ s.inFlight.erase s.currentFrame := by
    intro hc
    exact ((hnd.mem_erase_iff).mp hc).1 rfl
  have hnd2 : (s.inFlight.erase s.currentFrame ++ [s.currentFrame]).Nodup := by
    refine List.nodup_append.mpr ⟨hnd1, List.nodup_singleton _, ?_⟩
    intro a ha hb
    rcases List.mem_singleton.mp hb with rfl
    exact hni ha
  have hmem2 : ∀ j ∈ s.inFlight.erase s.currentFrame ++ [s.currentFrame],
      j < s.maxFramesInFlight := by
    intro j hj
    rcases List.mem_append.mp hj with hj | hj
    · exact hmem1 j hj
    · rcases List.mem_singleton.mp hj with rfl
      exact hcur
  have hmod : (s.currentFrame + 1) % s.maxFramesInFlight < s.maxFramesInFlight :=
    Nat.mod_lt _ hpos
  unfold drawFrame at h
  dsimp only at h
  split at h
  · simp only [Except.ok.injEq, Prod.mk.injEq] at h
    obtain ⟨hs, -⟩ := h
    subst hs
    exact ⟨⟨hnd1, hmem1, hcur, hpos⟩, rfl⟩
  · split at h
    · exact absurd h (by simp)
    · split at h
      · exact absurd h (by simp)
      · split at h
        · simp only [Except.ok.injEq, Prod.mk.injEq] at h
          obtain ⟨hs, -⟩ := h
          subst hs
          exact ⟨⟨hnd2, hmem2, hmod, hpos⟩, rfl⟩
        · split at h
          · exact absurd h (by simp)
          · simp only [Except.ok.injEq, Prod.mk.injEq] at h
            obtain ⟨hs, -⟩ := h
            subst hs
            exact ⟨⟨hnd2, hmem2, hmod, hpos⟩, rfl⟩

theorem runTicks_inv (s : EngineState) (hinv : SlotInvariant s)
    (inputs : List TickInput) :
    SlotInvariant (runTicks s inputs) ∧
      (runTicks s inputs).maxFramesInFlight = s.maxFramesInFlight := by
  induction inputs generalizing s with
  | nil => exact ⟨hinv, rfl⟩
  | cons inp rest ih =>
    simp only [runTicks]
    cases h : drawFrame s inp with
    | error e => exact ⟨hinv, rfl⟩
    | ok p =>
      obtain ⟨hinv', hmax⟩ := drawFrame_preserves_inv s inp p.1 p.2 h hinv
      obtain ⟨h1, h2⟩ := ih p.1 hinv'
      exact ⟨h1, h2.trans hmax⟩

/-- Outcome of one tick, defaulting to the unchanged state on a thrown
error; used to name concrete post-states in witnesses. -/
def tickOutcome (s : EngineState) (inp : TickInput) : EngineState × List FrameOp :=
  match drawFrame s inp with
  | Except.ok p => p
  | Except.error _ => (s, [])

/-- C1: every drawFrame tick that completes without an acquire failure
performs, in exactly this order: wait on slot i's fence, acquire the next
image (signaling slot i's image-available semaphore), update slot i's
uniform buffer, reset slot i's fence (after the wait), reset and re-record
slot i's command buffer against the acquired image, submit waiting on
image-available and signaling render-finished plus slot i's fence, present
waiting on render-finished, then advance the slot index to (i+1) mod N.
(A swapchain recreation may additionally follow presentation.) -/
theorem drawFrame_tick_operation_order (s : EngineState) (inp : TickInput)
    (s' : EngineState) (tr : List FrameOp)
    (hok : drawFrame s inp = Except.ok (s', tr))
    (hacq : inp.acquireResult ≠ VkResult.errorOutOfDateKHR) :
    (tr = canonicalTickTrace s.currentFrame inp.acquiredImageIndex ∨
      tr = canonicalTickTrace s.currentFrame inp.acquiredImageIndex ++
        [FrameOp.recreateSwapChainOp]) ∧
    s'.currentFrame = (s.currentFrame + 1) % s.maxFramesInFlight := by
  unfold drawFrame at hok
  dsimp only at hok
  split at hok
  · exact absurd ‹_› hacq
  · split at hok
    · exact absurd hok (by simp)
    · split at hok
      · exact absurd hok (by simp)
      · split at hok
        · simp only [Except.ok.injEq, Prod.mk.injEq] at hok
          obtain ⟨hs, ht⟩ := hok
          subst hs
          subst ht
          exact ⟨Or.inr rfl, rfl⟩
        · split at hok
          · exact absurd hok (by simp)
          · simp only [Except.ok.injEq, Prod.mk.injEq] at hok
            obtain ⟨hs, ht⟩ := hok
            subst hs
            subst ht
            exact ⟨Or.inl rfl, rfl⟩

/-- Tick input for the C1 witness: a fully successful tick. -/
def c1WitnessInput : TickInput :=
  { acquireResult := VkResult.success
    acquiredImageIndex := 0
    submitOk := true
    presentResult := VkResult.success }

/-- Witness for C1 at a concrete successful tick from the initial state. -/
theorem drawFrame_tick_operation_order_witness :
    ((tickOutcome initialEngineState c1WitnessInput).2 = canonicalTickTrace 0 0 ∨
      (tickOutcome initialEngineState c1WitnessInput).2 =
        canonicalTickTrace 0 0 ++ [FrameOp.recreateSwapChainOp]) ∧
    (tickOutcome initialEngineState c1WitnessInput).1.currentFrame =
      (0 + 1) % initialEngineState.maxFramesInFlight :=
  drawFrame_tick_operation_order initialEngineState c1WitnessInput
    (tickOutcome initialEngineState c1WitnessInput).1
    (tickOutcome initialEngineState c1WitnessInput).2 rfl (by decide)

/-- C2: for every number of ticks of the orchestrator started from the
initial state, at most N = MAX_FRAMES_IN_FLIGHT (2) command buffers are
simultaneously in flight (submitted but not yet fence-waited): each tick
waits on slot i's fence before reusing the slot and advances round-robin
modulo N. -/
theorem framesInFlight_bounded_by_maxFramesInFlight
    (inputs : List TickInput) (k : Nat) :
    (runTicks initialEngineState (inputs.take k)).inFlight.length ≤
      MAX_FRAMES_IN_FLIGHT ∧ MAX_FRAMES_IN_FLIGHT = 2 := by
  have hinv0 : SlotInvariant initialEngineState := by
    refine ⟨List.nodup_nil, ?_, ?_, ?_⟩ <;>
      simp [initialEngineState, MAX_FRAMES_IN_FLIGHT]
  obtain ⟨⟨hnd, hmem, -, -⟩, hmax⟩ :=
    runTicks_inv initialEngineState hinv0 (inputs.take k)
  refine ⟨?_, rfl⟩
  refine nodup_length_le_of_lt _ _ hnd ?_
  intro j hj
  have hb := hmem j hj
  rw [hmax] at hb
  exact hb

/-- C3: when image acquisition reports VK_ERROR_OUT_OF_DATE_KHR, the tick
is aborted normally (no exception): the swapchain recreation counter
advances, and the rest of the tick is skipped — slot i's fence is not
reset (it reads signaled), the uniform buffer is not written, the command
buffer is neither re-recorded nor submitted, nothing is presented, and the
current slot index is unchanged. -/
theorem drawFrame_acquire_out_of_date_aborts (s : EngineState) (inp : TickInput)
    (hacq : inp.acquireResult = VkResult.errorOutOfDateKHR) :
    drawFrame s inp =
      Except.ok (recreateStep (waitFenceStep s),
        [FrameOp.waitFence s.currentFrame,
         FrameOp.acquireNextImage (Sem.imageAvailable s.currentFrame),
         FrameOp.recreateSwapChainOp]) ∧
    (recreateStep (waitFenceStep s)).currentFrame = s.currentFrame ∧
    (recreateStep (waitFenceStep s)).recreations = s.recreations + 1 ∧
    (recreateStep (waitFenceStep s)).fenceSignaled s.currentFrame = true ∧
    (recreateStep (waitFenceStep s)).uboWriteCount = s.uboWriteCount ∧
    (recreateStep (waitFenceStep s)).cmdRecordCount = s.cmdRecordCount := by
  refine ⟨?_, rfl, rfl, by simp [recreateStep, waitFenceStep], rfl, rfl⟩
  unfold drawFrame
  simp [hacq]

/-- Tick input for the C3 witness: acquisition reports out-of-date. -/
def c3WitnessInput : TickInput :=
  { acquireResult := VkResult.errorOutOfDateKHR
    acquiredImageIndex := 0
    submitOk := true
    presentResult := VkResult.success }

/-- Witness for C3 at a concrete out-of-date tick from the initial state. -/
theorem drawFrame_acquire_out_of_date_aborts_witness :
    drawFrame initialEngineState c3WitnessInput =
      Except.ok (recreateStep (waitFenceStep initialEngineState),
        [FrameOp.waitFence initialEngineState.currentFrame,
         FrameOp.acquireNextImage (Sem.imageAvailable initialEngineState.currentFrame),
         FrameOp.recreateSwapChainOp]) ∧
    (recreateStep (waitFenceStep initialEngineState)).currentFrame =
      initialEngineState.currentFrame ∧
    (recreateStep (waitFenceStep initialEngineState)).recreations =
      initialEngineState.recreations + 1 ∧
    (recreateStep (waitFenceStep initialEngineState)).fenceSignaled
      initialEngineState.currentFrame = true ∧
    (recreateStep (waitFenceStep initialEngineState)).uboWriteCount =
      initialEngineState.uboWriteCount ∧
    (recreateStep (waitFenceStep initialEngineState)).cmdRecordCount =
      initialEngineState.cmdRecordCount :=
  drawFrame_acquire_out_of_date_aborts initialEngineState c3WitnessInput rfl

/-! Vertex layout (src/src/Geometry/Mesh.h, struct graphics::Vertex) and the
vertex input state of the graphics pipeline. -/

/-- Fields of struct graphics::Vertex, in declaration order meaning. -/
inductive VertexAttr
  | pos
  | normal
  | color
deriving DecidableEq, Repr

/-- Bytes in one 32-bit float. -/
def floatByteSize : Nat := 4

/-- Every field of graphics::Vertex is a glm::vec3: three 32-bit floats. -/
def attrComponentCount : VertexAttr → Nat
  | _ => 3

/-- sizeof one vertex field in bytes. -/
def attrByteSize (a : VertexAttr) : Nat := attrComponentCount a * floatByteSize

/-- Declaration order of the fields of struct graphics::Vertex
(Mesh.h lines 123-126): pos, normal, color. -/
def vertexFieldOrder : List VertexAttr :=
  [VertexAttr.pos, VertexAttr.normal, VertexAttr.color]

/-- offsetof(Vertex, a): the bytes occupied by the fields declared before
`a`.  All fields are 4-byte-aligned vec3s, so the struct has no padding. -/
def offsetofVertex (a : VertexAttr) : Nat :=
  ((vertexFieldOrder.takeWhile (fun b => b ≠ a)).map attrByteSize).sum

/-- sizeof(graphics::Vertex): the sum of its field sizes (no padding). -/
def sizeofVertex : Nat := (vertexFieldOrder.map attrByteSize).sum

/-- Vulkan format code VK_FORMAT_R32G32B32_SFLOAT. -/
def VK_FORMAT_R32G32B32_SFLOAT : Nat := 106

/-- Number of 32-bit float components described by a format code used in
the vertex attribute descriptions. -/
def formatComponentCount (f : Nat) : Nat :=
  if f = VK_FORMAT_R32G32B32_SFLOAT then 3 else 0

/-- One VkVertexInputAttributeDescription. -/
structure VertexInputAttributeDescription where
  binding : Nat
  location : Nat
  format : Nat
  offset : Nat
deriving DecidableEq, Repr

/-- One VkVertexInputBindingDescription (input rate is per-vertex). -/
structure VertexInputBindingDescription where
  binding : Nat
  stride : Nat
deriving DecidableEq, Repr

/-- graphics::Vertex::getBindingDescription (Mesh.h lines 147-153):
binding 0, stride sizeof(Vertex). -/
def getBindingDescription : VertexInputBindingDescription :=
  { binding := 0, stride := sizeofVertex }

/-- graphics::Vertex::getAttributeDescriptions (Mesh.h lines 169-191):
three attributes, locations 0/1/2, all VK_FORMAT_R32G32B32_SFLOAT, at
offsetof(Vertex, pos/normal/color). -/
def getAttributeDescriptions : List VertexInputAttributeDescription :=
  [{ binding := 0, location := 0, format := VK_FORMAT_R32G32B32_SFLOAT,
     offset := offsetofVertex VertexAttr.pos },
   { binding := 0, location := 1, format := VK_FORMAT_R32G32B32_SFLOAT,
     offset := offsetofVertex VertexAttr.normal },
   { binding := 0, location := 2, format := VK_FORMAT_R32G32B32_SFLOAT,
     offset := offsetofVertex VertexAttr.color }]

/-- Vertex input state fed to vkCreateGraphicsPipelines by
VulkanEngine::createGraphicsPipeline (src/unnamed/part_004 lines 785-794):
one binding description and the attribute descriptions, both taken from
graphics::Vertex. -/
structure PipelineVertexInputState where
  bindingDescriptions : List VertexInputBindingDescription
  attributeDescriptions : List VertexInputAttributeDescription
deriving DecidableEq, Repr

/-- The concrete vertex input state of the single graphics pipeline. -/
def pipelineVertexInputState : PipelineVertexInputState :=
  { bindingDescriptions := [getBindingDescription]
    attributeDescriptions := getAttributeDescriptions }

/-- Vertex inputs declared by shaders/shader.vert (lines 11-13):
location and float-component count of inPosition, inNormal, inColor. -/
def shaderVertexInputs : List (Nat × Nat) := [(0, 3), (1, 3), (2, 3)]

/-- C9: the pipeline's vertex input state describes exactly three
attributes — position, normal, color, each three 32-bit floats — whose
offsets are offsetof(pos)=0, offsetof(normal)=12, offsetof(color)=24 and
whose binding stride is sizeof(Vertex)=36, structurally matching the
shader's input declarations location for location. -/
theorem vertex_layout_matches_shader :
    pipelineVertexInputState.attributeDescriptions.length = 3 ∧
    pipelineVertexInputState.attributeDescriptions.map
      (fun d => (d.location, formatComponentCount d.format)) = shaderVertexInputs ∧
    pipelineVertexInputState.attributeDescriptions.map (fun d => d.offset) =
      [offsetofVertex VertexAttr.pos, offsetofVertex VertexAttr.normal,
       offsetofVertex VertexAttr.color] ∧
    pipelineVertexInputState.attributeDescriptions.map (fun d => d.offset) =
      [0, 12, 24] ∧
    pipelineVertexInputState.bindingDescriptions =
      [{ binding := 0, stride := 36 }] ∧
    getBindingDescription.stride = sizeofVertex ∧
    sizeofVertex = 36 := by decide

/-! Geometry buffer (VulkanGeometryBuffer) modelled as event traces. -/

/-- Mesh content held by a Geometry object: just the element counts matter
for buffer sizing. -/
structure Geometry where
  vertexCount : Nat
  indexCount : Nat
deriving DecidableEq, Repr

/-- Observable state of a VulkanGeometryBuffer. -/
structure GeometryBufferState where
  geometry : Option Geometry
  hasVertexBuffer : Bool
  hasIndexBuffer : Bool
  needsUpdate : Bool
deriving DecidableEq, Repr

/-- The two device-local buffers owned by the geometry buffer. -/
inductive BufKind
  | vertex
  | index
deriving DecidableEq, Repr

/-- Observable operations performed while (re)building the geometry
buffers, in program order. -/
inductive GeomEvent
  | waitDeviceIdle
  | destroyOldBuffer (k : BufKind)
  | createStagingBuffer (k : BufKind) (byteSize : Nat)
  | fillStagingBuffer (k : BufKind)
  | createDeviceBuffer (k : BufKind) (byteSize : Nat)
  | copyToDeviceBuffer (k : BufKind) (byteSize : Nat)
  | destroyStagingBuffer (k : BufKind)
deriving DecidableEq, Repr

/-- sizeof(uint32_t). -/
def sizeofUInt32 : Nat := 4

/-- VulkanGeometryBuffer::createBuffers of src/unnamed/part_002
(lines 23-89): returns early with no geometry; otherwise stages and copies
the vertex array then the index array, with buffer sizes exactly
sizeof(Vertex)*vertexCount and sizeof(uint32_t)*indexCount (this revision
applies no minimum-size substitution).  vkCmdCopyBuffer is submitted and
waited to completion inside VulkanUtils::copyBuffer, so a copy event marks
a completed copy. -/
def createBuffersEvents (g : GeometryBufferState) : List GeomEvent :=
  match g.geometry with
  | none => []
  | some geom =>
    let vsize := sizeofVertex * geom.vertexCount
    let isize := sizeofUInt32 * geom.indexCount
    [GeomEvent.createStagingBuffer BufKind.vertex vsize,
     GeomEvent.fillStagingBuffer BufKind.vertex,
     GeomEvent.createDeviceBuffer BufKind.vertex vsize,
     GeomEvent.copyToDeviceBuffer BufKind.vertex vsize,
     GeomEvent.destroyStagingBuffer BufKind.vertex,
     GeomEvent.createStagingBuffer BufKind.index isize,
     GeomEvent.fillStagingBuffer BufKind.index,
     GeomEvent.createDeviceBuffer BufKind.index isize,
     GeomEvent.copyToDeviceBuffer BufKind.index isize,
     GeomEvent.destroyStagingBuffer BufKind.index]

/-- VulkanGeometryBuffer::destroyBuffers of src/unnamed/part_002
(lines 98-109): destroys the held vertex buffer, then the held index
buffer, when present. -/
def destroyBuffersEvents (g : GeometryBufferState) : List GeomEvent :=
  (if g.hasVertexBuffer then [GeomEvent.destroyOldBuffer BufKind.vertex] else []) ++
  (if g.hasIndexBuffer then [GeomEvent.destroyOldBuffer BufKind.index] else [])

/-- VulkanGeometryBuffer::updateBuffers of src/unnamed/part_002
(lines 91-96): returns with needsUpdate unset; otherwise destroyBuffers()
then createBuffers(). -/
def updateBuffersEvents (g : GeometryBufferState) : List GeomEvent :=
  if g.needsUpdate = false then []
  else destroyBuffersEvents g ++ createBuffersEvents g

/-- Recognizer for the destruction of an old device-local buffer. -/
def isDestroyOld : GeomEvent → Bool
  | GeomEvent.destroyOldBuffer _ => true
  | _ => false

/-- Recognizer for a (completed) copy into a new device-local buffer. -/
def isCopyToDevice : GeomEvent → Bool
  | GeomEvent.copyToDeviceBuffer _ _ => true
  | _ => false

/-- The ordering asserted by the C4 claim: every destruction of an old
buffer happens only after every copy of new content has completed. -/
def destroysOldOnlyAfterCopy (tr : List GeomEvent) : Prop :=
  ∀ i j : Fin tr.length,
    isDestroyOld (tr.get i) = true → isCopyToDevice (tr.get j) = true → j < i

instance (tr : List GeomEvent) : Decidable (destroysOldOnlyAfterCopy tr) := by
  unfold destroysOldOnlyAfterCopy
  infer_instance

/-- The ordering the code actually realizes: every destruction of an old
buffer happens before every copy of new content begins. -/
def destroysOldBeforeCopy (tr : List GeomEvent) : Prop :=
  ∀ i j : Fin tr.length,
    isDestroyOld (tr.get i) = true → isCopyToDevice (tr.get j) = true → i < j

instance (tr : List GeomEvent) : Decidable (destroysOldBeforeCopy tr) := by
  unfold destroysOldBeforeCopy
  infer_instance

theorem append_order_separation {α : Type} (d c : List α) (P Q : α → Bool)
    (hdQ : ∀ e ∈ d, Q e = false) (hcP : ∀ e ∈ c, P e = false) :
    ∀ i j : Fin (d ++ c).length,
      P ((d ++ c).get i) = true → Q ((d ++ c).get j) = true → i < j := by
  intro i j hPi hQj
  have hi : (i : Nat) < d.length := by
    by_contra hnot
    push_neg at hnot
    have hlt : (i : Nat) - d.length < c.length := by
      have h2 := i.2
      simp only [List.length_append] at h2
      omega
    have hget : (d ++ c).get i = c.get ⟨(i : Nat) - d.length, hlt⟩ := by
      rw [List.get_eq_getElem, List.get_eq_getElem]
      exact List.getElem_append_right hnot
    have hmem : (d ++ c).get i ∈ c := by
      rw [hget]
      exact List.get_mem _ _ _
    rw [hcP _ hmem] at hPi
    exact Bool.false_ne_true hPi
  have hj : d.length ≤ (j : Nat) := by
    by_contra hnot
    push_neg at hnot
    have hget : (d ++ c).get j = d.get ⟨(j : Nat), hnot⟩ := by
      rw [List.get_eq_getElem, List.get_eq_getElem]
      exact List.getElem_append_left hnot
    have hmem : (d ++ c).get j ∈ d := by
      rw [hget]
      exact List.get_mem _ _ _
    rw [hdQ _ hmem] at hQj
    exact Bool.false_ne_true hQj
  exact Fin.lt_def.mpr (lt_of_lt_of_le hi hj)

/-- Geometry buffer state for the C4 counterexample: a pending content
replacement while both old buffers exist. -/
def c4State : GeometryBufferState :=
  { geometry := some { vertexCount := 3, indexCount := 3 }
    hasVertexBuffer := true
    hasIndexBuffer := true
    needsUpdate := true }

/-- Counterexample to C4: on a pending replacement with existing buffers,
updateBuffers destroys the old buffers before any copy of the new content
has completed (in fact, before the new buffers even exist). -/
theorem updateBuffers_not_destroy_after_copy :
    ¬ destroysOldOnlyAfterCopy (updateBuffersEvents c4State) := by decide

/-- C4 (amended): during a content replacement (updateBuffers with
needsUpdate set), the old device-local buffers are destroyed first —
strictly before every copy of the new content into the freshly allocated
buffers — not after the copy completes. -/
theorem updateBuffers_destroys_old_before_copy (g : GeometryBufferState)
    (h : g.needsUpdate = true) :
    destroysOldBeforeCopy (updateBuffersEvents g) := by
  unfold updateBuffersEvents
  rw [h]
  simp only [Bool.true_eq_false, if_false]
  unfold destroysOldBeforeCopy
  refine append_order_separation _ _ isDestroyOld isCopyToDevice ?_ ?_
  · intro e he
    unfold destroyBuffersEvents at he
    rcases List.mem_append.mp he with h' | h' <;> split at h' <;>
      simp only [List.mem_singleton, List.not_mem_nil] at h' <;>
      first
        | exact absurd h' (by simp)
        | (subst h'; rfl)
  · intro e he
    unfold createBuffersEvents at he
    cases hg : g.geometry with
    | none =>
      rw [hg] at he
      exact absurd he (List.not_mem_nil e)
    | some geom =>
      rw [hg] at he
      simp only [List.mem_cons, List.not_mem_nil, or_false] at he
      rcases he with rfl | rfl | rfl | rfl | rfl | rfl | rfl | rfl | rfl | rfl <;> rfl

/-- Witness for amended C4 at the concrete counterexample state. -/
theorem updateBuffers_destroys_old_before_copy_witness :
    c4State.needsUpdate = true ∧
      destroysOldBeforeCopy (updateBuffersEvents c4State) :=
  ⟨rfl, updateBuffers_destroys_old_before_copy c4State rfl⟩

/-! The revision of VulkanGeometryBuffer compiled into the application
(src/src/renderer/vulkanUtils/VulkanGeometryBuffer.cpp, the file included
by the application driver), which substitutes a minimum allocation size
for empty meshes. -/

/-- Vertex buffer size computed by createBuffers of
src/src/renderer/vulkanUtils/VulkanGeometryBuffer.cpp (lines 45-49):
sizeof(Vertex) * vertexCount, with sizeof(Vertex) substituted when that
product is zero. -/
def vertexBufferSizeMin (vertexCount : Nat) : Nat :=
  let s := sizeofVertex * vertexCount
  if s = 0 then sizeofVertex else s

/-- Index buffer size computed by the same function (lines 84-88):
sizeof(uint32_t) * indexCount, with sizeof(uint32_t) substituted when that
product is zero. -/
def indexBufferSizeMin (indexCount : Nat) : Nat :=
  let s := sizeofUInt32 * indexCount
  if s = 0 then sizeofUInt32 else s

/-- destroyBuffers of src/src/renderer/vulkanUtils/VulkanGeometryBuffer.cpp
(lines 132-146): waits for the device to go idle, then destroys the held
buffers. -/
def destroyBuffersEventsMin (g : GeometryBufferState) : List GeomEvent :=
  GeomEvent.waitDeviceIdle ::
    ((if g.hasVertexBuffer then [GeomEvent.destroyOldBuffer BufKind.vertex] else []) ++
     (if g.hasIndexBuffer then [GeomEvent.destroyOldBuffer BufKind.index] else []))

/-- createBuffers of src/src/renderer/vulkanUtils/VulkanGeometryBuffer.cpp
(lines 36-121): throws without geometry (modelled as `none`); otherwise
destroys any existing buffers and stages and copies both arrays using the
minimum-substituted sizes; the staging memcpy is skipped when the
corresponding element count is zero. -/
def createBuffersEventsMin (g : GeometryBufferState) : Option (List GeomEvent) :=
  match g.geometry with
  | none => none
  | some geom =>
    let vsize := vertexBufferSizeMin geom.vertexCount
    let isize := indexBufferSizeMin geom.indexCount
    some (destroyBuffersEventsMin g ++
      [GeomEvent.createStagingBuffer BufKind.vertex vsize] ++
      (if geom.vertexCount > 0 then [GeomEvent.fillStagingBuffer BufKind.vertex] else []) ++
      [GeomEvent.createDeviceBuffer BufKind.vertex vsize,
       GeomEvent.copyToDeviceBuffer BufKind.vertex vsize,
       GeomEvent.destroyStagingBuffer BufKind.vertex,
       GeomEvent.createStagingBuffer BufKind.index isize] ++
      (if geom.indexCount > 0 then [GeomEvent.fillStagingBuffer BufKind.index] else []) ++
      [GeomEvent.createDeviceBuffer BufKind.index isize,
       GeomEvent.copyToDeviceBuffer BufKind.index isize,
       GeomEvent.destroyStagingBuffer BufKind.index])

/-- Sizes passed to VulkanUtils::createBuffer by a trace, in order.
VulkanUtils::createBuffer (src/src/VulkanEngine/VulkanUtils.cpp lines
90-130) forwards its size argument unchanged into VkBufferCreateInfo::size,
whose Vulkan valid usage requires a strictly positive value. -/
def bufferCreateSizes : List GeomEvent → List Nat
  | [] => []
  | GeomEvent.createStagingBuffer _ s :: rest => s :: bufferCreateSizes rest
  | GeomEvent.createDeviceBuffer _ s :: rest => s :: bufferCreateSizes rest
  | _ :: rest => bufferCreateSizes rest

/-- getIndexCount of VulkanGeometryBuffer (src/unnamed/part_003 line 81):
the geometry's index count, or 0 when no geometry is set. -/
def getIndexCount (g : GeometryBufferState) : Nat :=
  match g.geometry with
  | none => 0
  | some geom => geom.indexCount

/-- Commands recorded into a frame's command buffer. -/
inductive DrawCmd
  | beginRenderPass (imageIndex : Nat)
  | bindPipeline
  | setViewport (width height : Nat)
  | setScissor (width height : Nat)
  | bindVertexBuffer
  | bindIndexBuffer
  | bindDescriptorSets (slot : Nat)
  | drawIndexed (indexCount : Nat)
  | endRenderPass
deriving DecidableEq, Repr

/-- VulkanEngine::recordCommandBuffer (src/unnamed/part_004 lines
1263-1354): begins the render pass on the acquired image's framebuffer,
binds the pipeline, sets the dynamic viewport and scissor to the swapchain
extent, then — only when the scene has a main mesh with a
VulkanGeometryBuffer — binds its vertex/index buffers and the current
slot's descriptor set and issues one indexed draw over getIndexCount(),
and finally ends the render pass. -/
def recordCommandBufferCmds (imageIndex width height slot : Nat)
    (mainMesh : Option GeometryBufferState) : List DrawCmd :=
  [DrawCmd.beginRenderPass imageIndex, DrawCmd.bindPipeline,
   DrawCmd.setViewport width height, DrawCmd.setScissor width height] ++
  (match mainMesh with
   | none => []
   | some g =>
     [DrawCmd.bindVertexBuffer, DrawCmd.bindIndexBuffer,
      DrawCmd.bindDescriptorSets slot,
      DrawCmd.drawIndexed (getIndexCount g)]) ++
  [DrawCmd.endRenderPass]

/-- Index counts of the indexed draws recorded in a command list. -/
def drawnIndexCounts : List DrawCmd → List Nat
  | [] => []
  | DrawCmd.drawIndexed n :: rest => n :: drawnIndexCounts rest
  | _ :: rest => drawnIndexCounts rest

/-- Geometry buffer state after replacing the content with an empty mesh. -/
def emptyMeshBufferState : GeometryBufferState :=
  { geometry := some { vertexCount := 0, indexCount := 0 }
    hasVertexBuffer := true
    hasIndexBuffer := true
    needsUpdate := true }

/-- C5: replacing the geometry content with an empty mesh (0 vertices,
0 indices) does not make buffer creation fail: createBuffers runs its
normal path (no throw), each size it requests from
VulkanUtils::createBuffer is strictly positive — the minimum sizes
sizeof(Vertex)=36 and sizeof(uint32_t)=4 are substituted for the zero-byte
requests — and the frame recorded afterwards issues exactly one indexed
draw covering zero indices (no visible geometry). -/
theorem emptyMesh_minimum_size_and_zero_draw :
    (createBuffersEventsMin emptyMeshBufferState).isSome = true ∧
    bufferCreateSizes ((createBuffersEventsMin emptyMeshBufferState).getD []) =
      [vertexBufferSizeMin 0, vertexBufferSizeMin 0,
       indexBufferSizeMin 0, indexBufferSizeMin 0] ∧
    bufferCreateSizes ((createBuffersEventsMin emptyMeshBufferState).getD []) =
      [36, 36, 4, 4] ∧
    (∀ sz ∈ bufferCreateSizes ((createBuffersEventsMin emptyMeshBufferState).getD []),
      0 < sz) ∧
    drawnIndexCounts
      (recordCommandBufferCmds 0 800 600 0 (some emptyMeshBufferState)) = [0] := by
  refine ⟨rfl, rfl, rfl, ?_, rfl⟩
  decide

/-! Swapchain recreation (VulkanEngine::recreateSwapChain and
cleanupSwapChain) as a trace of resource destructions and creations. -/

/-- Kinds of engine-owned resources relevant to swapchain recreation. -/
inductive ResKind
  | swapchain
  | colorImageView
  | depthImage
  | depthImageMemory
  | depthImageView
  | framebuffer
  | uniformBuffer
  | uniformBufferMapping
  | descriptorPool
  | descriptorSet
  | commandBuffer
  | imageAvailableSemaphore
  | renderFinishedSemaphore
  | inFlightFence
  | logicalDevice
  | deviceQueue
  | renderPassObject
  | graphicsPipeline
deriving DecidableEq, Repr

/-- A resource-lifecycle operation. -/
inductive ResOp
  | waitIdle
  | destroyRes (k : ResKind)
  | createRes (k : ResKind)
deriving DecidableEq, Repr

/-- VulkanEngine::cleanupSwapChain (src/unnamed/part_004 lines 1362-1384):
destroys the depth image view, depth image and depth memory, then every
framebuffer, then every color image view, then the swapchain object. -/
def cleanupSwapChainOps (framebufferCount imageViewCount : Nat) : List ResOp :=
  [ResOp.destroyRes ResKind.depthImageView, ResOp.destroyRes ResKind.depthImage,
   ResOp.destroyRes ResKind.depthImageMemory] ++
  List.replicate framebufferCount (ResOp.destroyRes ResKind.framebuffer) ++
  List.replicate imageViewCount (ResOp.destroyRes ResKind.colorImageView) ++
  [ResOp.destroyRes ResKind.swapchain]

/-- VulkanEngine::recreateSwapChain (src/unnamed/part_004 lines 204-233):
waits for the device to be idle, runs cleanupSwapChain, then
createSwapChain, createImageViews, createDepthResources (image, memory,
view) and createFramebuffers.  It calls nothing else: no per-frame
resource, device, queue, render pass or pipeline function. -/
def recreateSwapChainResOps (framebufferCount imageViewCount newImageCount : Nat) :
    List ResOp :=
  ResOp.waitIdle ::
    (cleanupSwapChainOps framebufferCount imageViewCount ++
     [ResOp.createRes ResKind.swapchain] ++
     List.replicate newImageCount (ResOp.createRes ResKind.colorImageView) ++
     [ResOp.createRes ResKind.depthImage, ResOp.createRes ResKind.depthImageMemory,
      ResOp.createRes ResKind.depthImageView] ++
     List.replicate newImageCount (ResOp.createRes ResKind.framebuffer))

/-- The resource kinds whose validity depends on the window size. -/
def windowSizeDependent : List ResKind :=
  [ResKind.swapchain, ResKind.colorImageView, ResKind.depthImage,
   ResKind.depthImageMemory, ResKind.depthImageView, ResKind.framebuffer]

/-- The per-frame and static resource kinds that resizing must not touch. -/
def resizeUntouched : List ResKind :=
  [ResKind.uniformBuffer, ResKind.uniformBufferMapping, ResKind.descriptorPool,
   ResKind.descriptorSet, ResKind.commandBuffer, ResKind.imageAvailableSemaphore,
   ResKind.renderFinishedSemaphore, ResKind.inFlightFence, ResKind.logicalDevice,
   ResKind.deviceQueue, ResKind.renderPassObject, ResKind.graphicsPipeline]

/-- C6: swapchain recreation destroys and rebuilds only the
window-size-dependent resources (swapchain, color image views, depth
image/memory/view, framebuffers) and neither destroys nor creates any
per-frame resource (uniform buffers and mappings, descriptor pool and
sets, command buffers, semaphores, fences) nor the device, queues, render
pass, or pipeline. -/
theorem recreateSwapChain_touches_only_window_sized
    (framebufferCount imageViewCount newImageCount : Nat)
    (hfb : 0 < framebufferCount) (hiv : 0 < imageViewCount)
    (hni : 0 < newImageCount) :
    (∀ k : ResKind,
      (ResOp.destroyRes k ∈
          recreateSwapChainResOps framebufferCount imageViewCount newImageCount ∨
        ResOp.createRes k ∈
          recreateSwapChainResOps framebufferCount imageViewCount newImageCount) →
        k ∈ windowSizeDependent) ∧
    (∀ k ∈ windowSizeDependent,
      ResOp.destroyRes k ∈
          recreateSwapChainResOps framebufferCount imageViewCount newImageCount ∧
        ResOp.createRes k ∈
          recreateSwapChainResOps framebufferCount imageViewCount newImageCount) ∧
    (∀ k ∈ resizeUntouched,
      ResOp.destroyRes k ∉
          recreateSwapChainResOps framebufferCount imageViewCount newImageCount ∧
        ResOp.createRes k ∉
          recreateSwapChainResOps framebufferCount imageViewCount newImageCount) := by
  have hfb' : framebufferCount ≠ 0 := Nat.pos_iff_ne_zero.mp hfb
  have hiv' : imageViewCount ≠ 0 := Nat.pos_iff_ne_zero.mp hiv
  have hni' : newImageCount ≠ 0 := Nat.pos_iff_ne_zero.mp hni
  refine ⟨?_, ?_, ?_⟩
  · intro k hk
    rcases hk with hk | hk <;>
      simp only [recreateSwapChainResOps, cleanupSwapChainOps, List.mem_cons,
        List.mem_append, List.mem_replicate, List.mem_singleton] at hk <;>
      cases k <;> simp_all [windowSizeDependent]
  · intro k hk
    fin_cases hk <;>
      constructor <;>
      simp [recreateSwapChainResOps, cleanupSwapChainOps, List.mem_replicate,
        hfb', hiv', hni']
  · intro k hk
    fin_cases hk <;>
      constructor <;>
      simp [recreateSwapChainResOps, cleanupSwapChainOps, List.mem_replicate]

/-- Witness for C6 at three framebuffers, three image views, three new
images. -/
theorem recreateSwapChain_touches_only_window_sized_witness :
    (0 : Nat) < 3 ∧
    ((∀ k : ResKind,
      (ResOp.destroyRes k ∈ recreateSwapChainResOps 3 3 3 ∨
        ResOp.createRes k ∈ recreateSwapChainResOps 3 3 3) →
        k ∈ windowSizeDependent) ∧
    (∀ k ∈ windowSizeDependent,
      ResOp.destroyRes k ∈ recreateSwapChainResOps 3 3 3 ∧
        ResOp.createRes k ∈ recreateSwapChainResOps 3 3 3) ∧
    (∀ k ∈ resizeUntouched,
      ResOp.destroyRes k ∉ recreateSwapChainResOps 3 3 3 ∧
        ResOp.createRes k ∉ recreateSwapChainResOps 3 3 3)) :=
  ⟨by decide,
    recreateSwapChain_touches_only_window_sized 3 3 3
      (by decide) (by decide) (by decide)⟩

/-! Swapchain configuration selection (surface format, present mode,
extent). -/

/-- std::numeric_limits of uint32_t . -/
def UINT32_MAX : Nat := 2 ^ 32 - 1

/-- A VkSurfaceFormatKHR: format and color-space codes. -/
structure SurfaceFormatKHR where
  format : Nat
  colorSpace : Nat
deriving DecidableEq, Repr

/-- Vulkan enum value VK_FORMAT_B8G8R8A8_SRGB. -/
def VK_FORMAT_B8G8R8A8_SRGB : Nat := 50

/-- Vulkan enum value VK_COLOR_SPACE_SRGB_NONLINEAR_KHR. -/
def VK_COLOR_SPACE_SRGB_NONLINEAR_KHR : Nat := 0

/-- Vulkan enum value VK_PRESENT_MODE_MAILBOX_KHR. -/
def VK_PRESENT_MODE_MAILBOX_KHR : Nat := 1

/-- Vulkan enum value VK_PRESENT_MODE_FIFO_KHR. -/
def VK_PRESENT_MODE_FIFO_KHR : Nat := 2

/-- VulkanEngine::chooseSwapSurfaceFormat (src/unnamed/part_004 lines
1510-1518): the first available format equal to B8G8R8A8_SRGB with the
SRGB nonlinear color space, else the first available format
(availableFormats[0]). -/
def chooseSwapSurfaceFormat (availableFormats : List SurfaceFormatKHR) :
    SurfaceFormatKHR :=
  match availableFormats.find? (fun f =>
      f.format == VK_FORMAT_B8G8R8A8_SRGB &&
      f.colorSpace == VK_COLOR_SPACE_SRGB_NONLINEAR_KHR) with
  | some f => f
  | none => availableFormats.headD { format := 0, colorSpace := 0 }

/-- VulkanEngine::chooseSwapPresentMode (src/unnamed/part_004 lines
1530-1538): MAILBOX when available, else FIFO. -/
def chooseSwapPresentMode (availablePresentModes : List Nat) : Nat :=
  match availablePresentModes.find? (fun m => m == VK_PRESENT_MODE_MAILBOX_KHR) with
  | some m => m
  | none => VK_PRESENT_MODE_FIFO_KHR

/-- A two-dimensional extent in pixels. -/
structure Extent2D where
  width : Nat
  height : Nat
deriving DecidableEq, Repr

/-- The fields of VkSurfaceCapabilitiesKHR consulted by the engine. -/
structure SurfaceCapabilitiesKHR where
  minImageCount : Nat
  maxImageCount : Nat
  currentExtent : Extent2D
  minImageExtent : Extent2D
  maxImageExtent : Extent2D
deriving DecidableEq, Repr

/-- std::clamp on unsigned integers. -/
def stdClamp (v lo hi : Nat) : Nat :=
  if v < lo then lo else if hi < v then hi else v

/-- VulkanEngine::chooseSwapExtent (src/unnamed/part_004 lines 1549-1569):
the surface's fixed currentExtent when one is reported, else the window
framebuffer size clamped to the device min/max image extents. -/
def chooseSwapExtent (windowFramebuffer : Extent2D)
    (capabilities : SurfaceCapabilitiesKHR) : Extent2D :=
  if capabilities.currentExtent.width ≠ UINT32_MAX then
    capabilities.currentExtent
  else
    { width := stdClamp windowFramebuffer.width
        capabilities.minImageExtent.width capabilities.maxImageExtent.width
      height := stdClamp windowFramebuffer.height
        capabilities.minImageExtent.height capabilities.maxImageExtent.height }

/-- The structural swapchain configuration (format, present mode, extent)
derived by createSwapChain (src/unnamed/part_004 lines 548-607). -/
structure SwapchainConfig where
  surfaceFormat : SurfaceFormatKHR
  presentMode : Nat
  extent : Extent2D
deriving DecidableEq, Repr

/-- One run of the selection performed at swapchain (re)creation. -/
def selectSwapchainConfig (windowFramebuffer : Extent2D)
    (capabilities : SurfaceCapabilitiesKHR) (formats : List SurfaceFormatKHR)
    (presentModes : List Nat) : SwapchainConfig :=
  { surfaceFormat := chooseSwapSurfaceFormat formats
    presentMode := chooseSwapPresentMode presentModes
    extent := chooseSwapExtent windowFramebuffer capabilities }

/-- The preferred 8-bit-per-channel sRGB surface format. -/
def isPreferredSrgb (f : SurfaceFormatKHR) : Prop :=
  f.format = VK_FORMAT_B8G8R8A8_SRGB ∧
    f.colorSpace = VK_COLOR_SPACE_SRGB_NONLINEAR_KHR

instance (f : SurfaceFormatKHR) : Decidable (isPreferredSrgb f) := by
  unfold isPreferredSrgb
  infer_instance

/-- Vulkan-guaranteed well-formedness of the reported capabilities: the
current extent (when fixed) matches the window's framebuffer size and lies
between the min and max image extents. -/
def CapsWellFormed (windowFramebuffer : Extent2D)
    (capabilities : SurfaceCapabilitiesKHR) : Prop :=
  capabilities.currentExtent.width ≠ UINT32_MAX →
    (capabilities.currentExtent = windowFramebuffer ∧
      capabilities.minImageExtent.width ≤ capabilities.currentExtent.width ∧
      capabilities.currentExtent.width ≤ capabilities.maxImageExtent.width ∧
      capabilities.minImageExtent.height ≤ capabilities.currentExtent.height ∧
      capabilities.currentExtent.height ≤ capabilities.maxImageExtent.height)

/-- C7: surface-format, present-mode and extent selection are deterministic
functions of the reported capabilities and the window size, so two
recreations with identical inputs produce a structurally equal
configuration; the chosen format is the 8-bit sRGB one when present and
the first available otherwise, the chosen mode is MAILBOX when available
and FIFO otherwise, and the chosen extent is the window framebuffer size
clamped to the device min/max image extents. -/
theorem swapchainConfig_deterministic_and_characterized
    (windowFramebuffer : Extent2D) (capabilities : SurfaceCapabilitiesKHR)
    (formats : List SurfaceFormatKHR) (presentModes : List Nat)
    (hne : formats ≠ [])
    (hwf : CapsWellFormed windowFramebuffer capabilities) :
    selectSwapchainConfig windowFramebuffer capabilities formats presentModes =
      selectSwapchainConfig windowFramebuffer capabilities formats presentModes ∧
    ((∃ f ∈ formats, isPreferredSrgb f) →
      isPreferredSrgb (chooseSwapSurfaceFormat formats)) ∧
    ((¬ ∃ f ∈ formats, isPreferredSrgb f) →
      chooseSwapSurfaceFormat formats =
        formats.headD { format := 0, colorSpace := 0 }) ∧
    (VK_PRESENT_MODE_MAILBOX_KHR ∈ presentModes →
      chooseSwapPresentMode presentModes = VK_PRESENT_MODE_MAILBOX_KHR) ∧
    (VK_PRESENT_MODE_MAILBOX_KHR ∉ presentModes →
      chooseSwapPresentMode presentModes = VK_PRESENT_MODE_FIFO_KHR) ∧
    chooseSwapExtent windowFramebuffer capabilities =
      { width := stdClamp windowFramebuffer.width
          capabilities.minImageExtent.width capabilities.maxImageExtent.width
        height := stdClamp windowFramebuffer.height
          capabilities.minImageExtent.height capabilities.maxImageExtent.height } := by
  refine ⟨rfl, ?_, ?_, ?_, ?_, ?_⟩
  · intro hex
    unfold chooseSwapSurfaceFormat
    cases hfind : formats.find? (fun f =>
        f.format == VK_FORMAT_B8G8R8A8_SRGB &&
        f.colorSpace == VK_COLOR_SPACE_SRGB_NONLINEAR_KHR) with
    | none =>
      obtain ⟨f, hf, hsrgb⟩ := hex
      have := List.find?_eq_none.mp hfind f hf
      rw [hsrgb.1, hsrgb.2] at this
      simp at this
    | some f =>
      have := List.find?_some hfind
      simp only [Bool.and_eq_true, beq_iff_eq] at this
      exact this
  · intro hnex
    unfold chooseSwapSurfaceFormat
    cases hfind : formats.find? (fun f =>
        f.format == VK_FORMAT_B8G8R8A8_SRGB &&
        f.colorSpace == VK_COLOR_SPACE_SRGB_NONLINEAR_KHR) with
    | none => rfl
    | some f =>
      exfalso
      apply hnex
      refine ⟨f, List.mem_of_find?_eq_some hfind, ?_⟩
      have := List.find?_some hfind
      simp only [Bool.and_eq_true, beq_iff_eq] at this
      exact this
  · intro hmem
    unfold chooseSwapPresentMode
    cases hfind : presentModes.find? (fun m => m == VK_PRESENT_MODE_MAILBOX_KHR) with
    | none =>
      have := List.find?_eq_none.mp hfind _ hmem
      simp at this
    | some m =>
      have := List.find?_some hfind
      simpa using this
  · intro hnmem
    unfold chooseSwapPresentMode
    cases hfind : presentModes.find? (fun m => m == VK_PRESENT_MODE_MAILBOX_KHR) with
    | none => rfl
    | some m =>
      exfalso
      have hm := List.find?_some hfind
      simp only [beq_iff_eq] at hm
      exact hnmem (hm ▸ List.mem_of_find?_eq_some hfind)
  · unfold chooseSwapExtent
    split
    · rename_i hfix
      obtain ⟨hcur, h1, h2, h3, h4⟩ := hwf hfix
      rw [hcur] at h1 h2 h3 h4 ⊢
      have hw : stdClamp windowFramebuffer.width
          capabilities.minImageExtent.width capabilities.maxImageExtent.width =
          windowFramebuffer.width := by
        unfold stdClamp
        split
        · omega
        · split
          · omega
          · rfl
      have hh : stdClamp windowFramebuffer.height
          capabilities.minImageExtent.height capabilities.maxImageExtent.height =
          windowFramebuffer.height := by
        unfold stdClamp
        split
        · omega
        · split
          · omega
          · rfl
      cases windowFramebuffer
      simp_all
    · rfl

/-- Witness for C7: a device reporting a non-sRGB format first, MAILBOX
missing, and a variable-extent surface. -/
theorem swapchainConfig_deterministic_and_characterized_witness :
    ([{ format := 44, colorSpace := 0 }, { format := 50, colorSpace := 0 }] ≠
      ([] : List SurfaceFormatKHR)) ∧
    CapsWellFormed { width := 800, height := 600 }
      { minImageCount := 2, maxImageCount := 8
        currentExtent := { width := UINT32_MAX, height := 0 }
        minImageExtent := { width := 1, height := 1 }
        maxImageExtent := { width := 4096, height := 4096 } } ∧
    (selectSwapchainConfig { width := 800, height := 600 }
        { minImageCount := 2, maxImageCount := 8
          currentExtent := { width := UINT32_MAX, height := 0 }
          minImageExtent := { width := 1, height := 1 }
          maxImageExtent := { width := 4096, height := 4096 } }
        [{ format := 44, colorSpace := 0 }, { format := 50, colorSpace := 0 }]
        [2] =
      selectSwapchainConfig { width := 800, height := 600 }
        { minImageCount := 2, maxImageCount := 8
          currentExtent := { width := UINT32_MAX, height := 0 }
          minImageExtent := { width := 1, height := 1 }
          maxImageExtent := { width := 4096, height := 4096 } }
        [{ format := 44, colorSpace := 0 }, { format := 50, colorSpace := 0 }]
        [2] ∧
    ((∃ f ∈ [SurfaceFormatKHR.mk 44 0, SurfaceFormatKHR.mk 50 0], isPreferredSrgb f) →
      isPreferredSrgb (chooseSwapSurfaceFormat
        [SurfaceFormatKHR.mk 44 0, SurfaceFormatKHR.mk 50 0])) ∧
    ((¬ ∃ f ∈ [SurfaceFormatKHR.mk 44 0, SurfaceFormatKHR.mk 50 0], isPreferredSrgb f) →
      chooseSwapSurfaceFormat [SurfaceFormatKHR.mk 44 0, SurfaceFormatKHR.mk 50 0] =
        [SurfaceFormatKHR.mk 44 0, SurfaceFormatKHR.mk 50 0].headD
          { format := 0, colorSpace := 0 }) ∧
    (VK_PRESENT_MODE_MAILBOX_KHR ∈ [2] →
      chooseSwapPresentMode [2] = VK_PRESENT_MODE_MAILBOX_KHR) ∧
    (VK_PRESENT_MODE_MAILBOX_KHR ∉ [2] →
      chooseSwapPresentMode [2] = VK_PRESENT_MODE_FIFO_KHR) ∧
    chooseSwapExtent { width := 800, height := 600 }
        { minImageCount := 2, maxImageCount := 8
          currentExtent := { width := UINT32_MAX, height := 0 }
          minImageExtent := { width := 1, height := 1 }
          maxImageExtent := { width := 4096, height := 4096 } } =
      { width := stdClamp 800 1 4096, height := stdClamp 600 1 4096 }) :=
  ⟨by decide, fun h => absurd rfl h,
    swapchainConfig_deterministic_and_characterized
      { width := 800, height := 600 }
      { minImageCount := 2, maxImageCount := 8
        currentExtent := { width := UINT32_MAX, height := 0 }
        minImageExtent := { width := 1, height := 1 }
        maxImageExtent := { width := 4096, height := 4096 } }
      [{ format := 44, colorSpace := 0 }, { format := 50, colorSpace := 0 }]
      [2] (by decide) (fun h => absurd rfl h)⟩

/-! Uniform buffer update (VulkanEngine::updateUniformBuffer). -/

/-- A 4x4 matrix over scalars `α`, indexed column first as glm does. -/
def Mat4 (α : Type) : Type := Fin 4 → Fin 4 → α

/-- The UBO struct of VulkanEngine.h (lines 214-218): model, view,
projection. -/
structure UniformBufferObject (α : Type) where
  model : Mat4 α
  view : Mat4 α
  proj : Mat4 α

/-- The statement `proj[1][1] *= -1` of updateUniformBuffer
(src/unnamed/part_004 line 1241): negate the entry in column 1, row 1 of
the projection matrix and leave every other entry unchanged. -/
def flipProjY {α : Type} [Neg α] (m : Mat4 α) : Mat4 α :=
  fun c r => if c = 1 ∧ r = 1 then -(m c r) else m c r

/-- VulkanEngine::updateUniformBuffer (src/unnamed/part_004 lines
1214-1251) builds the UBO record from the scene's main-mesh transform
(`model`), the glm::lookAt result for the fixed camera (`view`) and the
glm::perspective result for the fixed frustum with the Y flip applied
(`proj`); the two library matrices are taken here as already-computed
inputs since the engine copies them unchanged apart from the flip. -/
def updateUniformBufferUBO {α : Type} [Neg α] (model view proj : Mat4 α) :
    UniformBufferObject α :=
  { model := model, view := view, proj := flipProjY proj }

/-- Serialization of one matrix as memcpy lays it out: sixteen scalars,
column major. -/
def mat4Words {α : Type} (m : Mat4 α) : List α :=
  (List.finRange 4).flatMap (fun c => (List.finRange 4).map (fun r => m c r))

/-- Contents of slot i's persistently mapped buffer after the
`memcpy(uniformBuffersMapped[i], &ubo, sizeof(ubo))` of line 1250: the
three matrices in declaration order. -/
def mappedBufferAfterUpdate {α : Type} [Neg α] (model view proj : Mat4 α) :
    List α :=
  mat4Words (updateUniformBufferUBO model view proj).model ++
  mat4Words (updateUniformBufferUBO model view proj).view ++
  mat4Words (updateUniformBufferUBO model view proj).proj

/-- Reading entry (column `c`, row `r`) of the matrix stored at scalar
offset `base` in the mapped buffer. -/
def readMappedMatrixEntry {α : Type} [Inhabited α] (words : List α)
    (base : Nat) (c r : Fin 4) : α :=
  words.getD (base + 4 * (c : Nat) + (r : Nat)) default

/-- C8: reading the mapped uniform buffer back after an update yields the
model and view matrices bit-identical to the inputs (the memcpy applies no
transformation), and a projection matrix identical to the input except for
the documented Y-axis flip: entry [1][1] is negated and every other entry
is unchanged. -/
theorem uniformBuffer_roundTrip_bitIdentical {α : Type} [Neg α] [Inhabited α]
    (model view proj : Mat4 α) (c r : Fin 4) :
    readMappedMatrixEntry (mappedBufferAfterUpdate model view proj) 0 c r =
      model c r ∧
    readMappedMatrixEntry (mappedBufferAfterUpdate model view proj) 16 c r =
      view c r ∧
    readMappedMatrixEntry (mappedBufferAfterUpdate model view proj) 32 c r =
      (if c = 1 ∧ r = 1 then -(proj c r) else proj c r) := by
  refine ⟨?_, ?_, ?_⟩ <;> fin_cases c <;> fin_cases r <;> rfl

/-! Application startup order (src/unnamed/part_007). -/

/-- Observable application state: whether the window is up, whether the
scene is initialized, and the VulkanEngine pointer (`none` models the
nullptr it is initialized with on line 245). -/
structure AppState where
  windowInitialized : Bool
  vulkanEngine : Option Unit
  sceneInitialized : Bool
deriving DecidableEq, Repr

/-- The failure observed when the application dereferences a null engine
pointer. -/
inductive AppFailure
  | nullPointerDereference
deriving DecidableEq, Repr

/-- Application::initWindow (lines 257-261). -/
def appInitWindow (s : AppState) : AppState :=
  { s with windowInitialized := true }

/-- A call through the `vulkanEngine` pointer, such as
vulkanEngine->getPhysicalDevice(): undefined behavior (modelled as the
nullPointerDereference failure) when no engine has been assigned. -/
def callEngineGetter (s : AppState) : Except AppFailure Unit :=
  match s.vulkanEngine with
  | none => Except.error AppFailure.nullPointerDereference
  | some e => Except.ok e

/-- Application::initScene (src/unnamed/part_007 lines 266-278):
constructs the VulkanGeometryBuffer from vulkanEngine->getPhysicalDevice(),
getDevice(), getGraphicsQueue() and getCommandPool(), then initializes the
scene with it. -/
def appInitScene (s : AppState) : Except AppFailure AppState := do
  let _physicalDevice ← callEngineGetter s
  let _device ← callEngineGetter s
  let _graphicsQueue ← callEngineGetter s
  let _commandPool ← callEngineGetter s
  Except.ok { s with sceneInitialized := true }

/-- Application::initVulkan (lines 287-290): allocates the engine and
assigns the pointer. -/
def appInitVulkan (s : AppState) : AppState :=
  { s with vulkanEngine := some () }

/-- Application::run (src/unnamed/part_007 lines 235-241): initWindow();
initScene(); initVulkan(); mainLoop(); cleanup() — in that order, starting
from the member initializer `VulkanEngine* vulkanEngine = nullptr`. -/
def applicationRun : Except AppFailure AppState := do
  let s0 : AppState :=
    { windowInitialized := false, vulkanEngine := none, sceneInitialized := false }
  let s1 := appInitWindow s0
  let s2 ← appInitScene s1
  let s3 := appInitVulkan s2
  Except.ok s3

/-- C10: on every run of the application, initScene() executes before
initVulkan() has assigned the engine pointer, so its very first call
through the pointer dereferences null during startup: the run fails with
a null-pointer dereference and the scene is never initialized. -/
theorem applicationRun_dereferences_null :
    applicationRun = Except.error AppFailure.nullPointerDereference ∧
    (appInitWindow
      { windowInitialized := false, vulkanEngine := none,
        sceneInitialized := false }).vulkanEngine = none ∧
    appInitScene
      (appInitWindow
        { windowInitialized := false, vulkanEngine := none,
          sceneInitialized := false }) =
      Except.error AppFailure.nullPointerDereference := by
  refine ⟨rfl, rfl, rfl⟩

end VkTmpl
